import Mathlib

set_option maxHeartbeats 1000000

/-!
Shallow embedding of the decision core of the banking email automation
pipeline: the intent-classification policy (`src/classifier.py`,
`src/llm_agent.py`), the escalation and action rules, the response quality
rubric (`src/response_generator.py`), the structured-data extraction
(`src/ocr_engine.py`) and the batch orchestration (`pipeline.py`).

Python strings are modelled as `List Char` (with `String` wrappers at record
boundaries), floats as `Rat`, dictionaries with fixed keys as structures, and
exceptions as `Option`/`Except` or early returns.
-/

namespace Banking

/- The arithmetic on `Rat` in Batteries is `@[irreducible]`, which blocks
`decide` on concrete rational computations; restore default unfolding for
this development. -/
attribute [local semireducible] Rat.mul Rat.inv Rat.add Rat.sub Rat.ofScientific

/-- ASCII whitespace as stripped by Python `str.strip()`. -/
def isPyWs (c : Char) : Bool :=
  c == ' ' || c == '\t' || c == '\n' || c == '\r' || c == Char.ofNat 11 || c == Char.ofNat 12

/-- Python `str.strip()`: drop leading and trailing whitespace. -/
def pyStrip (l : List Char) : List Char :=
  ((l.dropWhile isPyWs).reverse.dropWhile isPyWs).reverse

/-- Lower-case a single ASCII character, as Python `str.lower()` does per char. -/
def pyLowerChar (c : Char) : Char :=
  if 'A' ≤ c ∧ c ≤ 'Z' then Char.ofNat (c.toNat + 32) else c

/-- Python `str.lower()` (ASCII model). -/
def pyLower (l : List Char) : List Char := l.map pyLowerChar

/-- Python `str.split('\n')`. -/
def splitLines : List Char → List (List Char)
  | [] => [[]]
  | c :: rest =>
    if c = '\n' then [] :: splitLines rest
    else
      match splitLines rest with
      | [] => [[c]]
      | h :: t => (c :: h) :: t

/-- Python `old in hay` substring test. -/
def pyContains (hay needle : List Char) : Bool :=
  match hay with
  | [] => needle.isEmpty
  | _ :: rest => needle.isPrefixOf hay || pyContains rest needle

/-- Work loop of `pyReplace`, structurally recursive on a fuel argument so
that it reduces definitionally; each step consumes at least one character of
`hay`, so any `fuel ≥ hay.length` computes the replacement in full. -/
def pyReplaceFuel (old new : List Char) : Nat → List Char → List Char
  | 0, hay => hay
  | _ + 1, [] => []
  | fuel + 1, c :: rest =>
    if old ≠ [] ∧ old.isPrefixOf (c :: rest) = true then
      new ++ pyReplaceFuel old new fuel ((c :: rest).drop old.length)
    else
      c :: pyReplaceFuel old new fuel rest

/-- Python `str.replace(old, new)`: replace every non-overlapping occurrence,
left to right (all call sites in the source use a non-empty `old`). -/
def pyReplace (hay old new : List Char) : List Char :=
  pyReplaceFuel old new hay.length hay

/-- Numeric value of a digit string. -/
def digitsToNat (l : List Char) : Nat :=
  l.foldl (fun acc c => acc * 10 + (c.toNat - '0'.toNat)) 0

/-- Model of Python `float(s)` on the finite decimal literals the pipeline can
meet: optional surrounding whitespace, optional sign, integer and/or fractional
digits (at least one digit in total), optional decimal exponent.  `none` models
`float` raising `ValueError`.  (`inf`/`nan` spellings and underscore digit
separators are outside the model.) -/
def pyFloat (s : List Char) : Option Rat :=
  let s0 := pyStrip s
  let signAndRest : Rat × List Char :=
    match s0 with
    | '+' :: t => (1, t)
    | '-' :: t => (-1, t)
    | _ => (1, s0)
  let sign := signAndRest.1
  let s1 := signAndRest.2
  let intPart := s1.takeWhile Char.isDigit
  let rest1 := s1.drop intPart.length
  let fracAndRest : List Char × List Char :=
    match rest1 with
    | '.' :: t => (t.takeWhile Char.isDigit, t.dropWhile Char.isDigit)
    | _ => ([], rest1)
  let fracPart := fracAndRest.1
  let rest2 := fracAndRest.2
  if intPart.isEmpty && fracPart.isEmpty then none
  else
    let mant : Rat := (digitsToNat intPart : Rat) + (digitsToNat fracPart : Rat) / ((10 : Rat) ^ fracPart.length)
    match rest2 with
    | [] => some (sign * mant)
    | e :: t =>
      if e = 'e' ∨ e = 'E' then
        let esignAndRest : Bool × List Char :=
          match t with
          | '+' :: u => (false, u)
          | '-' :: u => (true, u)
          | _ => (false, t)
        let eds := esignAndRest.2.takeWhile Char.isDigit
        if eds.isEmpty || !(esignAndRest.2.drop eds.length).isEmpty then none
        else
          let mag : Rat := (10 : Rat) ^ (digitsToNat eds)
          some (sign * (if esignAndRest.1 then mant / mag else mant * mag))
      else none

/-! ## Classification data model (`src/llm_agent.py`, `src/classifier.py`) -/

/-- The result dictionary of `LLMAgent._parse_classification_response` /
`LLMAgent.classify_intent`. -/
structure Classification where
  intent : String
  confidence : Rat
  sub_category : Option String
  reasoning : String
deriving DecidableEq

/-- The line-by-line parsing loop of `LLMAgent._parse_classification_response`.
The `try`/`except` around the loop is modelled by returning the partially
filled result when `float(conf_str)` raises (`pyFloat` returns `none`). -/
def parseClassificationLines : List (List Char) → Classification → Classification
  | [], r => r
  | line :: rest, r =>
    let l := pyStrip line
    if ("INTENT:".data.isPrefixOf l : Bool) then
      parseClassificationLines rest
        { r with intent := ⟨pyLower (pyStrip (pyReplace l "INTENT:".data []))⟩ }
    else if ("CONFIDENCE:".data.isPrefixOf l : Bool) then
      match pyFloat (pyStrip (pyReplace l "CONFIDENCE:".data [])) with
      | some c => parseClassificationLines rest { r with confidence := c }
      | none => r
    else if ("SUB_CATEGORY:".data.isPrefixOf l : Bool) then
      let subCat := pyStrip (pyReplace l "SUB_CATEGORY:".data [])
      parseClassificationLines rest
        { r with sub_category :=
            if (⟨pyLower subCat⟩ : String) = "none" then none else some ⟨subCat⟩ }
    else if ("REASONING:".data.isPrefixOf l : Bool) then
      parseClassificationLines rest
        { r with reasoning := ⟨pyStrip (pyReplace l "REASONING:".data [])⟩ }
    else
      parseClassificationLines rest r

/-- `LLMAgent._parse_classification_response`. -/
def parse_classification_response (response : String) : Classification :=
  parseClassificationLines (splitLines (pyStrip response.data))
    ⟨"unknown", 0, none, ""⟩

/-- `LLMAgent.classify_intent`, as a function of the raw completion returned by
the external model (`none` models a failed call; Python treats the empty
string as falsy, so it takes the same failure path). -/
def classify_intent (response : Option String) : Classification :=
  match response with
  | none => ⟨"unknown", 0, none, "Failed to classify"⟩
  | some s =>
    if s = "" then ⟨"unknown", 0, none, "Failed to classify"⟩
    else parse_classification_response s

/-- The keys of `IntentClassifier.INTENT_CATEGORIES`. -/
def INTENT_CATEGORIES : List String :=
  ["loan_request", "kyc_update", "account_issue", "fraud_complaint", "general_inquiry"]

/-- `IntentClassifier.classify`, as a function of the raw completion: validate
the intent returned by `classify_intent`, remapping an unknown label to
`general_inquiry` with attenuated confidence.  (The `category_info` metadata
the source then attaches is static lookup data and is not modelled.) -/
def classify (response : Option String) : Classification :=
  let c := classify_intent response
  if INTENT_CATEGORIES.contains c.intent then c
  else { c with intent := "general_inquiry",
                confidence := max (1/2 : Rat) (c.confidence * (7/10)) }

/-! ## Escalation and action rules (`src/classifier.py`, `src/llm_agent.py`) -/

/-- A digit as a character. -/
def digitChar (n : Nat) : Char := Char.ofNat ('0'.toNat + n)

/-- Decimal digits of a natural number (fuel-based so that it reduces
definitionally; any `fuel > n` computes all digits). -/
def natDigitsFuel : Nat → Nat → List Char
  | 0, _ => []
  | fuel + 1, n =>
    if n < 10 then [digitChar n]
    else natDigitsFuel fuel (n / 10) ++ [digitChar (n % 10)]

/-- Decimal digits of a natural number. -/
def natDigits (n : Nat) : List Char := natDigitsFuel (n + 1) n

/-- Model of Python `f"{x:.2f}"`: render with exactly two digits after the
point, rounding to the nearest hundredth with ties to even.  (CPython first
converts to a binary double; that detour is not modelled.)  Used only inside
the low-confidence escalation reason. -/
def fmt2 (q : Rat) : String :=
  let a : Rat := if q < 0 then -q else q
  let scaled : Rat := a * 100
  let fl : Int := Rat.floor scaled
  let frac : Rat := scaled - (fl : Rat)
  let h : Int :=
    if 1/2 < frac then fl + 1
    else if frac < 1/2 then fl
    else if fl % 2 = 0 then fl else fl + 1
  let hn : Nat := h.toNat
  ⟨(if q < 0 then ['-'] else []) ++ natDigits (hn / 100) ++
    '.' :: [digitChar (hn % 100 / 10), digitChar (hn % 10)]⟩

/-- The email record fields the decision core reads.  A `priority` of `none`
models an email dictionary in which the `'priority'` key is absent; Python's
`email_data.get('priority', 'medium')` is `Option.getD · "medium"`. -/
structure EmailData where
  email_id : String
  subject : String
  priority : Option String
deriving DecidableEq

/-- `email_data.get('priority', 'medium')`. -/
def get_priority (e : EmailData) : String := e.priority.getD "medium"

/-- The rule cascade of `IntentClassifier.should_escalate`, as a function of
the three values the source extracts at the top of the method. -/
def should_escalate_core (intent : String) (confidence : Rat) (priority : String) :
    Bool × String :=
  if confidence < 6/10 then
    (true, "Low confidence classification (" ++ fmt2 confidence ++ ")")
  else if priority = "critical" then
    (true, "Critical priority email")
  else if intent = "fraud_complaint" then
    (true, "Fraud complaint requires immediate review")
  else if intent = "loan_request" then
    (true, "Loan application requires specialist review")
  else if intent = "account_issue" ∧ priority = "high" then
    (true, "High priority account issue")
  else
    (false, "Standard processing")

/-- `IntentClassifier.should_escalate`. -/
def should_escalate (classification : Classification) (email_data : EmailData) :
    Bool × String :=
  should_escalate_core classification.intent classification.confidence
    (get_priority email_data)

/-- The action dictionary returned by `LLMAgent.determine_action`. -/
structure ActionRec where
  action_type : String
  priority : String
  reason : String
  assigned_to : String
deriving DecidableEq

/-- The rule cascade of `LLMAgent.determine_action`, as a function of intent,
confidence, and the priority the source extracts on its first line. -/
def determine_action_core (intent : String) (confidence : Rat) (priority : String) :
    ActionRec :=
  if confidence < 6/10 then
    ⟨"escalate", priority, "Low confidence in classification, requires human review",
      "human_review_team"⟩
  else if intent = "fraud_complaint" ∨ priority = "critical" then
    ⟨"escalate", priority, "Urgent issue requiring immediate attention",
      if intent = "fraud_complaint" then "fraud_department" else "escalation_team"⟩
  else if intent = "loan_request" then
    ⟨"escalate", priority, "Loan application requires underwriting review",
      "loan_department"⟩
  else if intent = "kyc_update" then
    ⟨"reply", priority, "Standard KYC update, can be processed automatically",
      "kyc_team"⟩
  else if intent = "account_issue" then
    if priority = "high" then
      ⟨"escalate", priority, "High priority account issue", "customer_support_tier2"⟩
    else
      ⟨"reply", priority, "Standard account issue", "customer_support"⟩
  else
    ⟨"reply", priority, "General inquiry, can be handled with standard response",
      "customer_support"⟩

/-- `LLMAgent.determine_action`. -/
def determine_action (email_data : EmailData) (intent : String) (confidence : Rat) :
    ActionRec :=
  determine_action_core intent confidence (get_priority email_data)

/-- The action/queue cascade as §4.4 of the spec words it (spec-side
definition used for the refinement statement of the action resolver; it
returns the `(action type, assigned queue)` pair the spec fixes). -/
def actionCascadeSpec (intent : String) (confidence : Rat) (priority : String) :
    String × String :=
  if confidence < 6/10 then ("escalate", "human_review_team")
  else if intent = "fraud_complaint" ∨ priority = "critical" then
    ("escalate", if intent = "fraud_complaint" then "fraud_department" else "escalation_team")
  else if intent = "loan_request" then ("escalate", "loan_department")
  else if intent = "kyc_update" then ("reply", "kyc_team")
  else if intent = "account_issue" then
    if priority = "high" then ("escalate", "customer_support_tier2")
    else ("reply", "customer_support")
  else ("reply", "customer_support")

/-! ## Response quality rubric (`src/response_generator.py`) -/

/-- The fields of the response dictionary that
`ResponseGenerator.evaluate_response_quality` reads. -/
structure ResponseRec where
  response_text : String
  word_count : Nat
deriving DecidableEq

/-- `'dear' in response_text.lower()[:100]`. -/
def has_greeting (text : String) : Bool :=
  pyContains ((pyLower text.data).take 100) "dear".data

/-- `any(word in response_text.lower()[-200:] for word in ['regards', 'sincerely', 'thank you'])`
(Python `s[-200:]` is the final 200 characters, or all of `s` when shorter). -/
def has_closing (text : String) : Bool :=
  let tail := (pyLower text.data).drop ((pyLower text.data).length - 200)
  pyContains tail "regards".data || pyContains tail "sincerely".data ||
    pyContains tail "thank you".data

/-- `50 <= word_count <= 300`. -/
def appropriate_length (word_count : Nat) : Bool :=
  50 ≤ word_count && word_count ≤ 300

/-- `any(word in response_text.lower() for word in ['will', 'next', 'steps', 'process'])`. -/
def has_next_steps (text : String) : Bool :=
  let low := pyLower text.data
  pyContains low "will".data || pyContains low "next".data ||
    pyContains low "steps".data || pyContains low "process".data

/-- `not any(word in response_text.lower() for word in ['hey', 'gonna', 'wanna'])`. -/
def professional_tone (text : String) : Bool :=
  let low := pyLower text.data
  !(pyContains low "hey".data || pyContains low "gonna".data ||
    pyContains low "wanna".data)

/-- The quality dictionary returned by
`ResponseGenerator.evaluate_response_quality`. -/
structure ResponseQuality where
  has_greeting : Bool
  has_closing : Bool
  appropriate_length : Bool
  has_next_steps : Bool
  professional_tone : Bool
  quality_score : Nat
  quality_level : String
deriving DecidableEq

/-- `ResponseGenerator.evaluate_response_quality`. -/
def evaluate_response_quality (r : ResponseRec) : ResponseQuality :=
  let hg := has_greeting r.response_text
  let hc := has_closing r.response_text
  let al := appropriate_length r.word_count
  let hn := has_next_steps r.response_text
  let pt := professional_tone r.response_text
  let score := (if hg then 30 else 0) + (if hc then 20 else 0) + (if al then 20 else 0) +
    (if hn then 15 else 0) + (if pt then 15 else 0)
  ⟨hg, hc, al, hn, pt, score,
    if score ≥ 80 then "high" else if score ≥ 60 then "medium" else "low"⟩

/-! ## Batch orchestration (`pipeline.py`)

`EmailProcessingPipeline.process_email` wraps the whole per-email pipeline
(evidence extraction over attachment files, classification, response
generation, action resolution, database storage) in one `try`/`except` and
records any raised error on the result record.  The body performs file and
network I/O, so it is embedded abstractly as a `step` function returning
`Except String PipelinePayload`: `.error msg` models a raised exception whose
`str(e)` is `msg`. -/

/-- The successful per-email data bundle recorded on the result (the parts of
the result dictionary filled in before `result['success'] = True`). -/
structure PipelinePayload where
  intent : String
  confidence : Rat
  action_type : String
deriving DecidableEq

/-- The per-email outcome record built by
`EmailProcessingPipeline.process_email`: identity fields first, then either a
success payload or the recorded error text. -/
structure ProcResult where
  email_id : String
  subject : String
  success : Bool
  error : Option String
  payload : Option PipelinePayload
deriving DecidableEq

/-- `EmailProcessingPipeline.process_email`: the `try`/`except` boundary.  A
raised error (`.error msg`) is caught and recorded with the email's id and
message; a normal return marks success. -/
def process_email (step : EmailData → Except String PipelinePayload)
    (email : EmailData) : ProcResult :=
  match step email with
  | .ok p => ⟨email.email_id, email.subject, true, none, some p⟩
  | .error msg => ⟨email.email_id, email.subject, false, some msg, none⟩

/-- The loop of `EmailProcessingPipeline.process_all_emails`: every email is
processed, in order, each within its own failure boundary. -/
def process_all_emails (step : EmailData → Except String PipelinePayload)
    (emails : List EmailData) : List ProcResult :=
  emails.map (process_email step)

/-- The success/failure tallies of `EmailProcessingPipeline.generate_summary`
(the per-intent, per-action and confidence-bucket tallies of the summary
dictionary are not needed by any claim and are omitted). -/
structure BatchSummary where
  total_emails : Nat
  successful : Nat
  failed : Nat
deriving DecidableEq

/-- `EmailProcessingPipeline.generate_summary`, success/failure counts. -/
def generate_summary (results : List ProcResult) : BatchSummary :=
  ⟨results.length,
    (results.filter (fun r => r.success)).length,
    (results.filter (fun r => !r.success)).length⟩

/-- A five-email batch for the batch-isolation scenario. -/
def emailsW : List EmailData :=
  [⟨"email_1", "s1", some "low"⟩, ⟨"email_2", "s2", some "low"⟩,
   ⟨"email_3", "s3", some "low"⟩, ⟨"email_4", "s4", some "low"⟩,
   ⟨"email_5", "s5", some "low"⟩]

/-- A pipeline step that raises during evidence extraction on the third
email of `emailsW` and succeeds on the others. -/
def stepW : EmailData → Except String PipelinePayload := fun e =>
  if e.email_id = "email_3" then .error "evidence extraction failed"
  else .ok ⟨"general_inquiry", 9/10, "reply"⟩

/-! ## Structured-data extraction (`src/ocr_engine.py`)

`OCREngine.extract_structured_data` runs `re.findall` for each of its
patterns.  Each pattern is embedded as a matcher `List Char → Option (α × Nat)`
returning the captured value and the number of characters consumed, and a
scanner that mirrors `re.findall`: try the pattern at each position, emit the
match and resume after it, otherwise advance one character. -/

/-- `fuel`-driven `re.findall` scan loop; every matcher below consumes at
least one character, so `fuel = length` computes the scan in full. -/
def scanFuel {α : Type} (m : List Char → Option (α × Nat)) : Nat → List Char → List α
  | 0, _ => []
  | _ + 1, [] => []
  | fuel + 1, c :: rest =>
    match m (c :: rest) with
    | some (a, k) => a :: scanFuel m fuel ((c :: rest).drop k)
    | none => scanFuel m fuel rest

/-- `re.findall(pattern, l)` for the matcher `m` embedding `pattern`. -/
def findall {α : Type} (m : List Char → Option (α × Nat)) (l : List Char) : List α :=
  scanFuel m l.length l

/-- `\d{n}`: the next `n` characters exist and are digits. -/
def exactDigits (n : Nat) (l : List Char) : Bool :=
  (l.take n).length == n && (l.take n).all Char.isDigit

/-- `-\d{4}-\d{4}` (the tail of the account-number pattern); returns the
characters consumed. -/
def matchAccTail (l : List Char) : Option Nat :=
  match l with
  | '-' :: r =>
    if exactDigits 4 r then
      match r.drop 4 with
      | '-' :: r2 => if exactDigits 4 r2 then some 10 else none
      | _ => none
    else none
  | _ => none

/-- `(ACC|BUS-ACC)-\d{4}-\d{4}`.  The pattern has one capturing group, so
`re.findall` returns only the group content — just `ACC` or `BUS-ACC`, not the
full account number.  The two alternatives start with different letters, so at
most one can apply at a given position. -/
def matchAccount (l : List Char) : Option (List Char × Nat) :=
  if ("ACC".data.isPrefixOf l : Bool) then
    match matchAccTail (l.drop 3) with
    | some k => some ("ACC".data, 3 + k)
    | none => none
  else if ("BUS-ACC".data.isPrefixOf l : Bool) then
    match matchAccTail (l.drop 7) with
    | some k => some ("BUS-ACC".data, 7 + k)
    | none => none
  else none

/-- `\$[\d,]+\.?\d*`: a dollar sign, a non-empty greedy run of digits and
commas, an optional point, a greedy (possibly empty) run of digits. -/
def matchAmount (l : List Char) : Option (List Char × Nat) :=
  match l with
  | '$' :: rest =>
    let run := rest.takeWhile (fun ch => ch.isDigit || ch == ',')
    if run.isEmpty then none
    else
      match rest.drop run.length with
      | '.' :: rest3 =>
        let frac := rest3.takeWhile Char.isDigit
        some ('$' :: run ++ '.' :: frac, 1 + run.length + 1 + frac.length)
      | _ => some ('$' :: run, 1 + run.length)
  | _ => none

/-- The month names of the first date alternative, in the order the regex
lists them (no month name is a prefix of another). -/
def MONTHS : List (List Char) :=
  ["January", "February", "March", "April", "May", "June", "July", "August",
   "September", "October", "November", "December"].map String.data

/-- `,?\s+\d{4}` (the tail of the month-name date alternative); returns the
characters consumed.  (Backtracking over `,?` can never help: dropping a
matched comma leaves a comma where `\s+` needs whitespace.) -/
def matchCommaWsYear (l : List Char) : Option Nat :=
  let commaLen : Nat := match l with | ',' :: _ => 1 | _ => 0
  let r := l.drop commaLen
  let ws := r.takeWhile isPyWs
  if ws.isEmpty then none
  else if exactDigits 4 (r.drop ws.length) then some (commaLen + ws.length + 4)
  else none

/-- `(?:January|…|December)\s+\d{1,2},?\s+\d{4}`: month name, whitespace, a
greedy one-or-two digit day (two digits tried first, backtracking to one),
optional comma, whitespace, four-digit year. -/
def matchMonthDate (l : List Char) : Option Nat :=
  match MONTHS.findSome? (fun m => if (m.isPrefixOf l : Bool) then some m.length else none) with
  | none => none
  | some k =>
    let r1 := l.drop k
    let ws1 := r1.takeWhile isPyWs
    if ws1.isEmpty then none
    else
      let r2 := r1.drop ws1.length
      let ds := r2.takeWhile Char.isDigit
      if ds.isEmpty then none
      else
        match (if 2 ≤ ds.length then matchCommaWsYear (r2.drop 2) else none) with
        | some k2 => some (k + ws1.length + 2 + k2)
        | none =>
          match matchCommaWsYear (r2.drop 1) with
          | some k2 => some (k + ws1.length + 1 + k2)
          | none => none

/-- `/\d{4}` (the tail of the slash date alternative). -/
def matchSlashTail (l : List Char) : Option Nat :=
  match l with
  | '/' :: r => if exactDigits 4 r then some 5 else none
  | _ => none

/-- `/\d{1,2}/\d{4}` with a greedy one-or-two digit middle component. -/
def matchSlashMid (l : List Char) : Option Nat :=
  match l with
  | '/' :: r =>
    let ds := r.takeWhile Char.isDigit
    if ds.isEmpty then none
    else
      match (if 2 ≤ ds.length then matchSlashTail (r.drop 2) else none) with
      | some k => some (1 + 2 + k)
      | none =>
        match matchSlashTail (r.drop 1) with
        | some k => some (1 + 1 + k)
        | none => none
  | _ => none

/-- `\d{1,2}/\d{1,2}/\d{4}` with greedy day/month components. -/
def matchSlashDate (l : List Char) : Option Nat :=
  let ds := l.takeWhile Char.isDigit
  if ds.isEmpty then none
  else
    match (if 2 ≤ ds.length then matchSlashMid (l.drop 2) else none) with
    | some k => some (2 + k)
    | none =>
      match matchSlashMid (l.drop 1) with
      | some k => some (1 + k)
      | none => none

/-- `\d{4}-\d{2}-\d{2}`. -/
def matchIsoDate (l : List Char) : Option Nat :=
  if exactDigits 4 l then
    match l.drop 4 with
    | '-' :: r =>
      if exactDigits 2 r then
        match r.drop 2 with
        | '-' :: r2 => if exactDigits 2 r2 then some 10 else none
        | _ => none
      else none
    | _ => none
  else none

/-- The three-alternative date pattern, alternatives tried in the order the
regex lists them. -/
def matchDate (l : List Char) : Option (List Char × Nat) :=
  match matchMonthDate l with
  | some k => some (l.take k, k)
  | none =>
    match matchSlashDate l with
    | some k => some (l.take k, k)
    | none =>
      match matchIsoDate l with
      | some k => some (l.take k, k)
      | none => none

/-- `\(\d{3}\)\s*\d{3}-\d{4}`. -/
def matchPhone (l : List Char) : Option (List Char × Nat) :=
  match l with
  | '(' :: r =>
    if exactDigits 3 r then
      match r.drop 3 with
      | ')' :: r2 =>
        let ws := r2.takeWhile isPyWs
        let r3 := r2.drop ws.length
        if exactDigits 3 r3 then
          match r3.drop 3 with
          | '-' :: r4 =>
            if exactDigits 4 r4 then
              let n := 1 + 3 + 1 + ws.length + 3 + 1 + 4
              some (l.take n, n)
            else none
          | _ => none
        else none
      | _ => none
    else none
  | _ => none

/-- Characters of the local part `[a-zA-Z0-9._%+-]`. -/
def isLocalChar (c : Char) : Bool :=
  c.isAlpha || c.isDigit || c == '.' || c == '_' || c == '%' || c == '+' || c == '-'

/-- Characters of the domain run `[a-zA-Z0-9.-]`. -/
def isDomChar (c : Char) : Bool :=
  c.isAlpha || c.isDigit || c == '.' || c == '-'

/-- Backtracking split of the greedy `[a-zA-Z0-9.-]+\.[a-zA-Z]{2,}` suffix of
the email pattern over the maximal domain-character run `dom`: find the
largest separator index with a dot followed by at least two letters, and
return the characters of `dom` the match consumes.  (The final letter run is
greedy; letters beyond `dom` cannot occur since letters are domain
characters and `dom` is maximal.) -/
def emailSplit (dom : List Char) : Nat → Option Nat
  | 0 => none
  | j + 1 =>
    if dom.get? (j + 1) = some '.' then
      let run := (dom.drop (j + 2)).takeWhile Char.isAlpha
      if 2 ≤ run.length then some (j + 2 + run.length) else emailSplit dom j
    else emailSplit dom j

/-- `[a-zA-Z0-9._%+-]+@[a-zA-Z0-9.-]+\.[a-zA-Z]{2,}`. -/
def matchEmail (l : List Char) : Option (List Char × Nat) :=
  let loc := l.takeWhile isLocalChar
  if loc.isEmpty then none
  else
    match l.drop loc.length with
    | '@' :: r =>
      let dom := r.takeWhile isDomChar
      match emailSplit dom (dom.length - 1) with
      | some k => some (loc ++ '@' :: dom.take k, loc.length + 1 + k)
      | none => none
    | _ => none

/-- Regex word characters, for `\b`. -/
def isWordChar (c : Char) : Bool := c.isAlpha || c.isDigit || c == '_'

/-- `[A-Z][a-z]+`: one capital and a non-empty greedy lowercase run; returns
the characters consumed. -/
def nameWord (l : List Char) : Option Nat :=
  match l with
  | c :: r =>
    if 'A' ≤ c && c ≤ 'Z' then
      let run := r.takeWhile (fun x => 'a' ≤ x && x ≤ 'z')
      if run.isEmpty then none else some (1 + run.length)
    else none
  | [] => none

/-- `\s+[A-Z][a-z]+` (one repetition of the name-extension group). -/
def nameExt (l : List Char) : Option Nat :=
  let ws := l.takeWhile isPyWs
  if ws.isEmpty then none
  else
    match nameWord (l.drop ws.length) with
    | some k => some (ws.length + k)
    | none => none

/-- `\b` after a match: the next character, if any, is not a word character.
(A boundary inside a lowercase run is impossible, so only the greedy `{1,2}`
count can backtrack.) -/
def wordBoundaryAfter (l : List Char) : Bool :=
  match l with
  | [] => true
  | c :: _ => !isWordChar c

/-- `([A-Z][a-z]+(?:\s+[A-Z][a-z]+){1,2})\b` at a position whose preceding
character already passes the leading `\b`: two extensions are tried greedily,
backtracking to one if the trailing boundary fails. -/
def matchNameAt (l : List Char) : Option (List Char × Nat) :=
  match nameWord l with
  | none => none
  | some k1 =>
    match nameExt (l.drop k1) with
    | none => none
    | some k2 =>
      match nameExt (l.drop (k1 + k2)) with
      | some k3 =>
        if wordBoundaryAfter (l.drop (k1 + k2 + k3)) then
          some (l.take (k1 + k2 + k3), k1 + k2 + k3)
        else if wordBoundaryAfter (l.drop (k1 + k2)) then
          some (l.take (k1 + k2), k1 + k2)
        else none
      | none =>
        if wordBoundaryAfter (l.drop (k1 + k2)) then
          some (l.take (k1 + k2), k1 + k2)
        else none

/-- The scan loop for the name pattern, tracking the previous character for
the leading `\b`. -/
def scanNamesFuel : Nat → Option Char → List Char → List (List Char)
  | 0, _, _ => []
  | _ + 1, _, [] => []
  | fuel + 1, prev, c :: rest =>
    let boundary : Bool := match prev with | none => true | some p => !isWordChar p
    if boundary then
      match matchNameAt (c :: rest) with
      | some (cap, k) =>
        cap :: scanNamesFuel fuel ((c :: rest).take k).getLast? ((c :: rest).drop k)
      | none => scanNamesFuel fuel (some c) rest
    else scanNamesFuel fuel (some c) rest

/-- Python `list(set(x))`: one occurrence of each distinct value.  (The
iteration order of a Python set is unspecified; the model fixes an order,
which nothing downstream depends on.) -/
def pySet {α : Type} [DecidableEq α] (l : List α) : List α := l.dedup

/-- The hard-coded exclusion set of `OCREngine._extract_names`. -/
def false_positives : List String :=
  ["Account Number", "Business Name", "Loan Amount", "Annual Income",
   "Credit Score", "Date Birth", "Phone Number", "Email Address",
   "Net Profit", "Total Revenue", "Account Holder", "Primary Account",
   "Secondary Account", "Business Information", "Loan Request",
   "Financial Summary", "Supporting Documents", "New Address",
   "Previous Address", "Effective Date", "Employment Update",
   "Return Date", "Transaction Date", "Credit Card"]

/-- `OCREngine._extract_names`. -/
def extract_names (text : List Char) : List String :=
  let names := (scanNamesFuel text.length none text).map (fun l => (⟨l⟩ : String))
  pySet (names.filter (fun n => !(false_positives.contains n)))

/-- `OCREngine._parse_amount`: strip `$` and `,`, parse as float, and return
`0.0` when `float` raises `ValueError`. -/
def parse_amount (s : List Char) : Rat :=
  let cleaned := pyReplace (pyReplace s "$".data []) ",".data []
  match pyFloat cleaned with
  | some v => v
  | none => 0

/-- The dictionary built by `OCREngine.extract_structured_data`. -/
structure StructuredData where
  account_numbers : List String
  amounts : List Rat
  dates : List String
  phone_numbers : List String
  emails : List String
  names : List String
deriving DecidableEq

/-- `OCREngine.extract_structured_data`.  (The `try`/`except` around the
regex block has no failure source in the model; pattern matching is total.) -/
def extract_structured_data (text : String) : StructuredData :=
  let t := text.data
  { account_numbers := pySet ((findall matchAccount t).map (fun l => (⟨l⟩ : String)))
    amounts := (findall matchAmount t).map parse_amount
    dates := pySet ((findall matchDate t).map (fun l => (⟨l⟩ : String)))
    phone_numbers := pySet ((findall matchPhone t).map (fun l => (⟨l⟩ : String)))
    emails := pySet ((findall matchEmail t).map (fun l => (⟨l⟩ : String)))
    names := extract_names t }

/-! ## Model validation

Concrete evaluations of the embedded functions, checked against the behaviour
of the corresponding Python functions (`float`, `re.findall` with the source
patterns) on the same inputs. -/

section ModelValidation
example : pyFloat "0.9".data = some (9/10 : Rat) := by decide
example : pyFloat "5.0".data = some (5 : Rat) := by decide
example : pyFloat "".data = none := by decide
example : pyFloat ".".data = none := by decide
example : pyFloat "1234.56".data = some (123456/100 : Rat) := by decide
example : (classify (some "INTENT: loan_request\nCONFIDENCE: 0.9")).intent = "loan_request" := by decide
example : (classify (some "INTENT: pizza\nCONFIDENCE: 0.9")).intent = "general_inquiry" := by decide
example : (classify (some "INTENT: pizza\nCONFIDENCE: 0.9")).confidence = (63/100 : Rat) := by decide
example : (classify none).confidence = (1/2 : Rat) := by decide
example : (classify (some "INTENT: loan_request\nCONFIDENCE: 5.0")).confidence = (5 : Rat) := by decide
example : fmt2 (1/2) = "0.50" := by decide
example : fmt2 (92/100) = "0.92" := by decide
example : should_escalate_core "fraud_complaint" (1/2) "low" =
    (true, "Low confidence classification (0.50)") := by decide
example : should_escalate_core "fraud_complaint" (92/100) "critical" =
    (true, "Critical priority email") := by decide
example : determine_action_core "fraud_complaint" (92/100) "critical" =
    ⟨"escalate", "critical", "Urgent issue requiring immediate attention", "fraud_department"⟩ := by decide
example : determine_action_core "general_inquiry" (95/100) "low" =
    ⟨"reply", "low", "General inquiry, can be handled with standard response", "customer_support"⟩ := by decide
example : (extract_structured_data "$1,234.56").amounts = [123456/100] := by decide
example : (extract_structured_data "$,").amounts = [0] := by decide
example : (extract_structured_data "$5 $5").amounts = [5, 5] := by decide
example : (extract_structured_data "ACC-1234-5678 x").account_numbers = ["ACC"] := by decide
example : (extract_structured_data "pay by 01/02/2020").dates = ["01/02/2020"] := by decide
example : (extract_structured_data "May 1, 2020").dates = ["May 1, 2020"] := by decide
example : (extract_structured_data "2020-01-02").dates = ["2020-01-02"] := by decide
example : (extract_structured_data "(123) 456-7890").phone_numbers = ["(123) 456-7890"] := by decide
example : (extract_structured_data "mail a@b.cd now").emails = ["a@b.cd"] := by decide
example : (extract_structured_data "John Smith and Account Number").names = ["John Smith"] := by decide
example : (findall matchAmount "$1,234.56 $, $5 $5 $,.5 $5. $$7".data).map (fun l => (⟨l⟩ : String)) =
    ["$1,234.56", "$,", "$5", "$5", "$,.5", "$5.", "$7"] := by decide
example : (findall matchDate "pay by 01/02/2020 May 1, 2020 2020-01-02 May 123456 1/2/2020 2020-01-023".data).map (fun l => (⟨l⟩ : String)) =
    ["01/02/2020", "May 1, 2020", "2020-01-02", "1/2/2020", "2020-01-02"] := by decide
example : (findall matchEmail "mail a@b.cd now a@b.cd-ef a@b@c.de ab@cd x@y.z".data).map (fun l => (⟨l⟩ : String)) =
    ["a@b.cd", "a@b.cd", "b@c.de"] := by decide
example : (findall matchPhone "(123) 456-7890 (123)456-7890 (1234) 456-7890".data).map (fun l => (⟨l⟩ : String)) =
    ["(123) 456-7890", "(123)456-7890"] := by decide
example : (findall matchAccount "ACC-1234-5678 x BUS-ACC-1111-2222 ACC-12345-6789".data).map (fun l => (⟨l⟩ : String)) =
    ["ACC", "BUS-ACC"] := by decide
example :
    (scanNamesFuel "John Smith and Account Number John Smith Adam Lee Aa Bb Cc9 xJohn Smith".data.length
      none "John Smith and Account Number John Smith Adam Lee Aa Bb Cc9 xJohn Smith".data).map (fun l => (⟨l⟩ : String)) =
    ["John Smith", "Account Number John", "Smith Adam Lee", "Aa Bb"] := by decide
end ModelValidation

/-! ## Claims -/

/-- `classify` on a valid label: the classification passes through. -/
theorem classify_of_valid (response : Option String)
    (h : INTENT_CATEGORIES.contains (classify_intent response).intent = true) :
    classify response = classify_intent response := by
  simp only [classify]
  rw [if_pos h]

/-- `classify` on an invalid label: remap and attenuate. -/
theorem classify_of_invalid (response : Option String)
    (h : INTENT_CATEGORIES.contains (classify_intent response).intent = false) :
    classify response =
      { intent := "general_inquiry",
        confidence := max (1/2 : Rat) ((classify_intent response).confidence * (7/10)),
        sub_category := (classify_intent response).sub_category,
        reasoning := (classify_intent response).reasoning } := by
  simp only [classify]
  rw [if_neg (fun hc => Bool.false_ne_true (h.symm.trans hc))]

/-- **C1.** For every external classifier output (including an adversarial
string, the empty string, a failure sentinel, or a missing/unknown label), the
intent of the result of `IntentClassifier.classify` is one of the 5 closed
values; whenever the label returned by the agent is not one of the 5 closed
values, it is remapped to `general_inquiry` and the confidence becomes
`max(0.5, confidence * 0.7)`. -/
theorem classify_closed_intent (response : Option String) :
    (classify response).intent ∈ INTENT_CATEGORIES ∧
    ((classify_intent response).intent ∉ INTENT_CATEGORIES →
      (classify response).intent = "general_inquiry" ∧
      (classify response).confidence =
        max (1/2 : Rat) ((classify_intent response).confidence * (7/10))) := by
  by_cases hmem : (classify_intent response).intent ∈ INTENT_CATEGORIES
  · have hres := classify_of_valid response (by simpa using hmem)
    exact ⟨hres ▸ hmem, fun habs => absurd hmem habs⟩
  · have hres := classify_of_invalid response (by simpa using hmem)
    refine ⟨?_, fun _ => ⟨by rw [hres], by rw [hres]⟩⟩
    rw [hres]
    show "general_inquiry" ∈ INTENT_CATEGORIES
    decide

/-- **C1 witness**: the adversarial label `pizza` is remapped to
`general_inquiry`, with confidence `max(0.5, 0.9 * 0.7)`. -/
theorem classify_closed_intent_witness :
    (classify (some "INTENT: pizza\nCONFIDENCE: 0.9")).intent ∈ INTENT_CATEGORIES ∧
    (classify (some "INTENT: pizza\nCONFIDENCE: 0.9")).intent = "general_inquiry" ∧
    (classify (some "INTENT: pizza\nCONFIDENCE: 0.9")).confidence =
      max (1/2 : Rat)
        ((classify_intent (some "INTENT: pizza\nCONFIDENCE: 0.9")).confidence * (7/10)) :=
  ⟨(classify_closed_intent (some "INTENT: pizza\nCONFIDENCE: 0.9")).1,
   ((classify_closed_intent (some "INTENT: pizza\nCONFIDENCE: 0.9")).2 (by decide)).1,
   ((classify_closed_intent (some "INTENT: pizza\nCONFIDENCE: 0.9")).2 (by decide)).2⟩

/-- **C2 counterexample.** The code performs no confidence clamp: a completion
carrying a valid label and `CONFIDENCE: 5.0` leaves `classify` with confidence
5.0, outside `[0.0, 1.0]`. -/
theorem classify_confidence_exceeds_one :
    (1 : Rat) < (classify (some "INTENT: loan_request\nCONFIDENCE: 5.0")).confidence ∧
    (classify (some "INTENT: loan_request\nCONFIDENCE: 5.0")).confidence = 5 := by
  constructor <;> decide

/-- **C2 (amended).** No clamping is performed anywhere; out-of-range upstream
confidences propagate to the result.  What does hold: whenever the upstream
parsed confidence lies in `[0.0, 1.0]`, the confidence of the classification
produced by `IntentClassifier.classify` lies in `[0.0, 1.0]` (a valid label
passes it through, an invalid label yields `max(0.5, 0.7·c) ∈ [0.5, 1]`). -/
theorem classify_confidence_unit_of_upstream_unit (response : Option String)
    (h0 : 0 ≤ (classify_intent response).confidence)
    (h1 : (classify_intent response).confidence ≤ 1) :
    0 ≤ (classify response).confidence ∧ (classify response).confidence ≤ 1 := by
  by_cases hmem : (classify_intent response).intent ∈ INTENT_CATEGORIES
  · rw [classify_of_valid response (by simpa using hmem)]
    exact ⟨h0, h1⟩
  · rw [classify_of_invalid response (by simpa using hmem)]
    constructor
    · exact le_max_of_le_left (by norm_num)
    · refine max_le (by norm_num) ?_
      nlinarith

/-- **C2 (amended) witness** at a parsed confidence of 0.75. -/
theorem classify_confidence_unit_of_upstream_unit_witness :
    (0 ≤ (classify_intent (some "INTENT: fraud_complaint\nCONFIDENCE: 0.75")).confidence ∧
      (classify_intent (some "INTENT: fraud_complaint\nCONFIDENCE: 0.75")).confidence ≤ 1) ∧
    0 ≤ (classify (some "INTENT: fraud_complaint\nCONFIDENCE: 0.75")).confidence ∧
      (classify (some "INTENT: fraud_complaint\nCONFIDENCE: 0.75")).confidence ≤ 1 :=
  ⟨⟨by decide, by decide⟩,
   classify_confidence_unit_of_upstream_unit
     (some "INTENT: fraud_complaint\nCONFIDENCE: 0.75") (by decide) (by decide)⟩

/-- The low-confidence escalation reason embeds the formatted confidence, so
it is longer than 31 characters and cannot equal any shorter literal. -/
theorem low_conf_reason_ne (x t : String) (ht : t.length < 32) :
    ("Low confidence classification (" ++ x ++ ")") ≠ t := by
  intro hx
  have hlen := congrArg String.length hx
  have e1 : "Low confidence classification (".length = 31 := by decide
  have e2 : ")".length = 1 := by decide
  simp [String.length_append, e1, e2] at hlen
  omega

/-- **C3.** `should_escalate` evaluates an ordered rule list in which the
first matching rule wins: (1) confidence below 0.6 escalates with the
low-confidence reason; (2) critical priority escalates; (3) fraud complaints
escalate; (4) loan requests escalate; (5) high-priority account issues
escalate; (6) otherwise no escalation with reason "Standard processing".  In
particular, `confidence=0.5, intent=fraud_complaint, priority=low` escalates
with the low-confidence reason, not the fraud reason. -/
theorem should_escalate_rule_order (intent : String) (confidence : Rat) (priority : String) :
    (confidence < 6/10 →
      should_escalate_core intent confidence priority =
        (true, "Low confidence classification (" ++ fmt2 confidence ++ ")")) ∧
    (¬ confidence < 6/10 → priority = "critical" →
      should_escalate_core intent confidence priority = (true, "Critical priority email")) ∧
    (¬ confidence < 6/10 → priority ≠ "critical" → intent = "fraud_complaint" →
      should_escalate_core intent confidence priority =
        (true, "Fraud complaint requires immediate review")) ∧
    (¬ confidence < 6/10 → priority ≠ "critical" → intent ≠ "fraud_complaint" →
      intent = "loan_request" →
      should_escalate_core intent confidence priority =
        (true, "Loan application requires specialist review")) ∧
    (¬ confidence < 6/10 → priority ≠ "critical" → intent ≠ "fraud_complaint" →
      intent ≠ "loan_request" → intent = "account_issue" → priority = "high" →
      should_escalate_core intent confidence priority =
        (true, "High priority account issue")) ∧
    (¬ confidence < 6/10 → priority ≠ "critical" → intent ≠ "fraud_complaint" →
      intent ≠ "loan_request" → ¬(intent = "account_issue" ∧ priority = "high") →
      should_escalate_core intent confidence priority = (false, "Standard processing")) ∧
    should_escalate_core "fraud_complaint" (1/2) "low" =
      (true, "Low confidence classification (0.50)") ∧
    "Low confidence classification (0.50)" ≠ "Fraud complaint requires immediate review" := by
  refine ⟨?_, ?_, ?_, ?_, ?_, ?_, by decide, by decide⟩
  · intro h1
    unfold should_escalate_core
    rw [if_pos h1]
  · intro h1 h2
    unfold should_escalate_core
    rw [if_neg h1, if_pos h2]
  · intro h1 h2 h3
    unfold should_escalate_core
    rw [if_neg h1, if_neg h2, if_pos h3]
  · intro h1 h2 h3 h4
    unfold should_escalate_core
    rw [if_neg h1, if_neg h2, if_neg h3, if_pos h4]
  · intro h1 h2 h3 h4 h5 h6
    unfold should_escalate_core
    rw [if_neg h1, if_neg h2, if_neg h3, if_neg h4, if_pos ⟨h5, h6⟩]
  · intro h1 h2 h3 h4 h5
    unfold should_escalate_core
    rw [if_neg h1, if_neg h2, if_neg h3, if_neg h4, if_neg h5]

/-- **C3 witness**: rule 1 at confidence 0.55 and rule 6 at a standard email. -/
theorem should_escalate_rule_order_witness :
    should_escalate_core "kyc_update" (55/100) "medium" =
      (true, "Low confidence classification (" ++ fmt2 (55/100) ++ ")") ∧
    should_escalate_core "kyc_update" (9/10) "medium" = (false, "Standard processing") :=
  ⟨(should_escalate_rule_order "kyc_update" (55/100) "medium").1 (by decide),
   (should_escalate_rule_order "kyc_update" (9/10) "medium").2.2.2.2.2.1
     (by decide) (by decide) (by decide) (by decide) (by decide)⟩

/-- **C4.** For every combination of a closed-set intent, a confidence in
`[0.0, 1.0]`, and a priority in `{critical, high, medium, low}`: whenever
`should_escalate` escalates, `determine_action` never answers `reply`. -/
theorem escalate_implies_not_reply (intent : String) (confidence : Rat) (priority : String)
    (hi : intent ∈ INTENT_CATEGORIES)
    (hc0 : 0 ≤ confidence) (hc1 : confidence ≤ 1)
    (hp : priority ∈ (["critical", "high", "medium", "low"] : List String))
    (hesc : (should_escalate_core intent confidence priority).1 = true) :
    (determine_action_core intent confidence priority).action_type ≠ "reply" := by
  unfold INTENT_CATEGORIES at hi
  by_cases hc : confidence < 6/10
  · simp [determine_action_core, hc]
  · fin_cases hi <;> fin_cases hp <;>
      simp_all [should_escalate_core, determine_action_core, if_neg hc]

/-- **C4 witness** at `(fraud_complaint, 0.92, critical)`. -/
theorem escalate_implies_not_reply_witness :
    (determine_action_core "fraud_complaint" (92/100) "critical").action_type ≠ "reply" :=
  escalate_implies_not_reply "fraud_complaint" (92/100) "critical"
    (by decide) (by decide) (by decide) (by decide) (by decide)

/-- **C5.** `determine_action` implements the ordered cascade of §4.4 (stated
as a refinement against `actionCascadeSpec`, the spec-side cascade), every
branch produces a non-empty reason string, and in particular
`(fraud_complaint, 0.92, critical)` escalates to `fraud_department` while
`(general_inquiry, 0.95, low)` replies via `customer_support`. -/
theorem determine_action_cascade (intent : String) (confidence : Rat) (priority : String) :
    ((determine_action_core intent confidence priority).action_type,
      (determine_action_core intent confidence priority).assigned_to) =
      actionCascadeSpec intent confidence priority ∧
    (determine_action_core intent confidence priority).reason ≠ "" ∧
    determine_action_core "fraud_complaint" (92/100) "critical" =
      ⟨"escalate", "critical", "Urgent issue requiring immediate attention",
        "fraud_department"⟩ ∧
    determine_action_core "general_inquiry" (95/100) "low" =
      ⟨"reply", "low", "General inquiry, can be handled with standard response",
        "customer_support"⟩ := by
  refine ⟨?_, ?_, by decide, by decide⟩
  · unfold determine_action_core actionCascadeSpec
    split_ifs <;> rfl
  · unfold determine_action_core
    split_ifs <;> simp

/-- With the default priority `medium`, neither the critical-priority reason
nor the high-priority-account reason can be produced. -/
theorem should_escalate_core_medium_reasons (intent : String) (confidence : Rat) :
    (should_escalate_core intent confidence "medium").2 ≠ "Critical priority email" ∧
    (should_escalate_core intent confidence "medium").2 ≠ "High priority account issue" := by
  unfold should_escalate_core
  split_ifs with h1 h2 h3 h4 h5
  · exact ⟨low_conf_reason_ne _ _ (by decide), low_conf_reason_ne _ _ (by decide)⟩
  · exact absurd h2 (by decide)
  · exact ⟨by decide, by decide⟩
  · exact ⟨by decide, by decide⟩
  · exact absurd h5.2 (by decide)
  · exact ⟨by decide, by decide⟩

/-- With the default priority `medium`, neither the `escalation_team` queue
(critical-priority routing) nor `customer_support_tier2` (high-priority
account routing) can be assigned. -/
theorem determine_action_core_medium_queues (intent : String) (confidence : Rat) :
    (determine_action_core intent confidence "medium").assigned_to ≠ "escalation_team" ∧
    (determine_action_core intent confidence "medium").assigned_to ≠
      "customer_support_tier2" := by
  unfold determine_action_core
  split_ifs <;>
    first
      | (constructor <;> decide)
      | (rename_i hor hfraud
         rcases hor with hf | hcrit
         · exact absurd hf hfraud
         · exact absurd hcrit (by decide))
      | (rename_i hhigh
         exact absurd hhigh (by decide))

/-- **C10.** When the `'priority'` key is absent from the email record, both
`should_escalate` and `determine_action` behave exactly as if the priority
were `medium`: the results equal those for `priority='medium'`, and neither
the critical-priority rules nor the high-priority rules can fire. -/
theorem missing_priority_defaults_to_medium (cl : Classification) (e : EmailData)
    (intent : String) (confidence : Rat) (h : e.priority = none) :
    should_escalate cl e = should_escalate cl { e with priority := some "medium" } ∧
    determine_action e intent confidence =
      determine_action { e with priority := some "medium" } intent confidence ∧
    (should_escalate cl e).2 ≠ "Critical priority email" ∧
    (should_escalate cl e).2 ≠ "High priority account issue" ∧
    (determine_action e intent confidence).assigned_to ≠ "escalation_team" ∧
    (determine_action e intent confidence).assigned_to ≠ "customer_support_tier2" := by
  refine ⟨?_, ?_, ?_, ?_, ?_, ?_⟩
  · simp [should_escalate, get_priority, h]
  · simp [determine_action, get_priority, h]
  · simpa [should_escalate, get_priority, h] using
      (should_escalate_core_medium_reasons cl.intent cl.confidence).1
  · simpa [should_escalate, get_priority, h] using
      (should_escalate_core_medium_reasons cl.intent cl.confidence).2
  · simpa [determine_action, get_priority, h] using
      (determine_action_core_medium_queues intent confidence).1
  · simpa [determine_action, get_priority, h] using
      (determine_action_core_medium_queues intent confidence).2

/-- **C10 witness** on a concrete email without a priority key. -/
theorem missing_priority_defaults_to_medium_witness :
    should_escalate ⟨"account_issue", 9/10, none, ""⟩ ⟨"e1", "s1", none⟩ =
      should_escalate ⟨"account_issue", 9/10, none, ""⟩ ⟨"e1", "s1", some "medium"⟩ ∧
    determine_action ⟨"e1", "s1", none⟩ "account_issue" (9/10) =
      determine_action ⟨"e1", "s1", some "medium"⟩ "account_issue" (9/10) :=
  ⟨(missing_priority_defaults_to_medium ⟨"account_issue", 9/10, none, ""⟩ ⟨"e1", "s1", none⟩
      "account_issue" (9/10) rfl).1,
   (missing_priority_defaults_to_medium ⟨"account_issue", 9/10, none, ""⟩ ⟨"e1", "s1", none⟩
      "account_issue" (9/10) rfl).2.1⟩

/-- **C9.** The response quality rubric is a pure function of the response
record, awarding +30 for a greeting in the first 100 characters, +20 for a
closing phrase in the last 200 characters, +20 for a word count within
`[50, 300]`, +15 for forward-looking process language, and +15 for absence of
informal markers; the level is `high` for score ≥ 80, `medium` for ≥ 60, else
`low`; and a response with `word_count = 40` scores exactly 20 points fewer
than an otherwise-identical response with `word_count = 150`. -/
theorem evaluate_response_quality_rubric (r : ResponseRec) (t : String) :
    (evaluate_response_quality r).quality_score =
      (if has_greeting r.response_text then 30 else 0) +
      (if has_closing r.response_text then 20 else 0) +
      (if appropriate_length r.word_count then 20 else 0) +
      (if has_next_steps r.response_text then 15 else 0) +
      (if professional_tone r.response_text then 15 else 0) ∧
    (evaluate_response_quality r).quality_level =
      (if (evaluate_response_quality r).quality_score ≥ 80 then "high"
       else if (evaluate_response_quality r).quality_score ≥ 60 then "medium"
       else "low") ∧
    (evaluate_response_quality ⟨t, 150⟩).quality_score =
      (evaluate_response_quality ⟨t, 40⟩).quality_score + 20 := by
  refine ⟨rfl, rfl, ?_⟩
  cases hg : has_greeting t <;> cases hc : has_closing t <;>
    cases hn : has_next_steps t <;> cases hp : professional_tone t <;>
      simp [evaluate_response_quality, hg, hc, hn, hp, appropriate_length]

/-- Filtering a list by a predicate and by its negation splits its length. -/
theorem length_filter_bool_split (l : List ProcResult) :
    (l.filter (fun r => r.success)).length +
      (l.filter (fun r => !r.success)).length = l.length := by
  induction l with
  | nil => rfl
  | cons a t ih =>
    cases ha : a.success <;> simp [List.filter_cons, ha] <;> omega

/-- **C6.** For every batch and any per-email pipeline behaviour: an error
raised while processing one email is caught at the per-email boundary and
recorded as a failure outcome carrying that email's id and the error text; the
remaining emails are still processed (the outcome list is total, with the
outcome at every index computed independently from that email alone); and the
batch summary's successful and failed counts equal the number of success and
failure outcomes, summing to the number of emails — so a failed item appears
in the output rather than being omitted. -/
theorem batch_isolation (step : EmailData → Except String PipelinePayload)
    (emails : List EmailData) :
    (process_all_emails step emails).length = emails.length ∧
    (∀ e msg, step e = .error msg →
      process_email step e = ⟨e.email_id, e.subject, false, some msg, none⟩) ∧
    (∀ e p, step e = .ok p →
      process_email step e = ⟨e.email_id, e.subject, true, none, some p⟩) ∧
    (∀ i (h1 : i < emails.length) (h2 : i < (process_all_emails step emails).length),
      (process_all_emails step emails).get ⟨i, h2⟩ =
        process_email step (emails.get ⟨i, h1⟩)) ∧
    (generate_summary (process_all_emails step emails)).successful =
      ((process_all_emails step emails).filter (fun r => r.success)).length ∧
    (generate_summary (process_all_emails step emails)).failed =
      ((process_all_emails step emails).filter (fun r => !r.success)).length ∧
    (generate_summary (process_all_emails step emails)).successful +
      (generate_summary (process_all_emails step emails)).failed = emails.length := by
  refine ⟨by simp [process_all_emails], ?_, ?_, ?_, rfl, rfl, ?_⟩
  · intro e msg h
    simp [process_email, h]
  · intro e p h
    simp [process_email, h]
  · intro i h1 h2
    simp [process_all_emails]
  · show ((process_all_emails step emails).filter (fun r => r.success)).length +
        ((process_all_emails step emails).filter (fun r => !r.success)).length =
        emails.length
    rw [length_filter_bool_split]
    simp [process_all_emails]

/-- **C6 witness**: five emails where item 3 raises during evidence
extraction; the summary reports 4 successes and 1 failure, and the failure
record carries item 3's id and error text. -/
theorem batch_isolation_witness :
    (process_all_emails stepW emailsW).length = emailsW.length ∧
    process_email stepW ⟨"email_3", "s3", some "low"⟩ =
      ⟨"email_3", "s3", false, some "evidence extraction failed", none⟩ ∧
    (generate_summary (process_all_emails stepW emailsW)).successful = 4 ∧
    (generate_summary (process_all_emails stepW emailsW)).failed = 1 :=
  ⟨(batch_isolation stepW emailsW).1,
   (batch_isolation stepW emailsW).2.1 ⟨"email_3", "s3", some "low"⟩
     "evidence extraction failed" rfl,
   ((batch_isolation stepW emailsW).2.2.2.2.1).trans (by decide),
   ((batch_isolation stepW emailsW).2.2.2.2.2.1).trans (by decide)⟩

/-- **C7 counterexample.** The token `$,` matches the currency pattern, its
numeric parse fails (`float('')` raises `ValueError`), yet it appears in the
amounts collection as `0.0` instead of being excluded. -/
theorem unparseable_amount_becomes_zero :
    pyFloat (pyReplace (pyReplace "$,".data "$".data []) ",".data []) = none ∧
    (extract_structured_data "$,").amounts = [0] := by
  constructor <;> decide

/-- **C7 (amended).** `"$1,234.56"` parses to 1234.56 and no error reaches
the caller, but a matched currency-like token whose numeric parse fails is
not excluded: `_parse_amount` maps it to `0.0`, and
`extract_structured_data` keeps exactly one amount entry per matched token. -/
theorem parse_amount_behaviour (text : String) (s : List Char)
    (hfail : pyFloat (pyReplace (pyReplace s "$".data []) ",".data []) = none) :
    parse_amount "$1,234.56".data = 123456/100 ∧
    (extract_structured_data "$1,234.56").amounts = [123456/100] ∧
    parse_amount s = 0 ∧
    (extract_structured_data text).amounts =
      (findall matchAmount text.data).map parse_amount := by
  refine ⟨by decide, by decide, ?_, rfl⟩
  simp [parse_amount, hfail]

/-- **C7 (amended) witness** at the failing token `$,`. -/
theorem parse_amount_behaviour_witness :
    parse_amount "$1,234.56".data = 123456/100 ∧ parse_amount "$,".data = 0 :=
  ⟨(parse_amount_behaviour "" "$,".data (by decide)).1,
   (parse_amount_behaviour "" "$,".data (by decide)).2.2.1⟩

/-- **C8 counterexample.** The `amounts` field is not deduplicated: the text
`$5 $5` produces the amounts collection `[5.0, 5.0]`. -/
theorem amounts_not_deduplicated :
    (extract_structured_data "$5 $5").amounts = [5, 5] ∧
    ¬ (extract_structured_data "$5 $5").amounts.Nodup := by
  constructor <;> decide

/-- **C8 (amended).** Every field of the evidence bag except `amounts` is a
deduplicated collection; the `amounts` sequence keeps one entry per matched
token and may contain repeated values. -/
theorem evidence_fields_nodup (text : String) :
    (extract_structured_data text).account_numbers.Nodup ∧
    (extract_structured_data text).dates.Nodup ∧
    (extract_structured_data text).phone_numbers.Nodup ∧
    (extract_structured_data text).emails.Nodup ∧
    (extract_structured_data text).names.Nodup := by
  refine ⟨?_, ?_, ?_, ?_, ?_⟩ <;>
    simp [extract_structured_data, extract_names, pySet, List.nodup_dedup]

end Banking
